import Mathlib

/-!
Shallow embedding of the LuxFlex brightness/dimmer application
(`src/main.rs`) and verification of its specification.

The program maps one slider value (a `u8` carried by `Message::SliderChanged`)
onto a hardware brightness command dispatched to every attached monitor and an
overlay alpha applied to a layered full-screen window.  Machine integers are
modelled as `Nat`/`Int` with explicit `% 2^w` at the narrowing casts that the
Rust source performs (`as u8`, `as u32`).  Win32 calls are modelled by their
effect on an explicit state: each physical display is a record, the layered
overlay window is a record of its style flags, geometry, alpha and shown
state.  Fallible operations (`Result<()>` in the source) return
`Except String`; a Rust `expect` (panic) is modelled by `Option`, with `none`
standing for the panic.
-/

namespace LuxFlex

/-- Rust narrowing cast `as u8` applied to a 32-bit signed value:
two's-complement truncation to the low 8 bits.  For a non-negative `i32`
this is reduction modulo 256 (`src/main.rs:152`). -/
def i32_to_u8 (n : Int) : Nat := (n % 256).toNat

/-- Rust narrowing cast `as u32` applied to an `i32`: two's-complement
reinterpretation, i.e. reduction modulo 2^32 (`src/main.rs:148`). -/
def i32_to_u32 (n : Int) : Nat := (n % 4294967296).toNat

/-- Rust cast `as u8` applied to a non-negative `f32` (`src/main.rs:78`):
truncation toward zero, saturating at 255.  All stored values are small
integers, so the fractional part is always zero. -/
def f32_to_u8 (n : Nat) : Nat := min n 255

/-- One attached physical display, as seen through the Win32 monitor APIs.
`handleOk` models `GetPhysicalMonitorsFromHMONITOR` succeeding (returning
nonzero); `accepts` models `SetMonitorBrightness` accepting the command;
`brightness` is the monitor's current hardware brightness. -/
structure Display where
  handleOk : Bool
  accepts : Bool
  brightness : Nat
deriving DecidableEq, Repr

/-- `enum_monitor` (`src/main.rs:158-167`): the `EnumDisplayMonitors`
callback.  If the physical-monitor handle is obtained, it issues
`SetMonitorBrightness` (whose failure is ignored); in every case it returns
`1` ("continue enumeration").  Returns the display's new state and the
callback's return value. -/
def enum_monitor (brightness : Nat) (d : Display) : Display × Int :=
  let d' :=
    if d.handleOk then
      if d.accepts then { d with brightness := brightness } else d
    else d
  (d', 1)

/-- `EnumDisplayMonitors` semantics: visit the attached displays in order,
invoking the callback on each; stop early if the callback ever returns 0.
Returns the displays' new states and the number of callback invocations. -/
def enumDisplayMonitors (brightness : Nat) : List Display → List Display × Nat
  | [] => ([], 0)
  | d :: rest =>
    let r := enum_monitor brightness d
    if r.2 = 0 then (r.1 :: rest, 1)
    else
      let t := enumDisplayMonitors brightness rest
      (r.1 :: t.1, t.2 + 1)

/-- The layered overlay window created by `create_dimmer_window`
(`src/main.rs:119-144`): its extended/window style flags
(`WS_EX_LAYERED`, `WS_EX_TRANSPARENT`, `WS_EX_TOPMOST`, `WS_POPUP` -- a
popup window has no caption or border), geometry, current layered alpha and
shown state. -/
structure Surface where
  layered : Bool
  inputTransparent : Bool
  topmost : Bool
  popup : Bool
  x : Int
  y : Int
  width : Int
  height : Int
  alpha : Nat
  shown : Bool
deriving DecidableEq, Repr

/-- The Win32 environment observed at startup: whether `CreateWindowExW`
succeeds (returns a non-null handle) and the primary screen metrics
`GetSystemMetrics(SM_CXSCREEN)` / `GetSystemMetrics(SM_CYSCREEN)`. -/
structure WinEnv where
  createOk : Bool
  cxScreen : Int
  cyScreen : Int
deriving DecidableEq, Repr

/-- The `LuxFlex` struct (`src/main.rs:15-21`) together with the OS state it
acts on.  `brightness` is the struct's `brightness` field (declared `u8`,
assigned `f32` values; every value stored is an integer in [0,100], which
`f32` represents exactly, so it is modelled as `Nat`).  `dimmer` is the
state of the window behind `dimmer_hwnd`; `displays` is the state of the
attached monitors; `dispatched` is a ghost trace of every brightness value
handed to `EnumDisplayMonitors`, recording when dispatches happen. -/
structure AppState where
  brightness : Nat
  dimmer_alpha : Nat
  dimmer : Surface
  window_visible : Bool
  displays : List Display
  dispatched : List Nat
deriving DecidableEq, Repr

/-- `create_dimmer_window` (`src/main.rs:119-144`): create a layered,
input-transparent, topmost, popup (borderless) window covering the primary
screen; fail with `anyhow::bail!` if the handle is null; otherwise set its
layered alpha to 0 and hide it. -/
def create_dimmer_window (env : WinEnv) : Except String Surface :=
  if env.createOk then
    Except.ok
      { layered := true
        inputTransparent := true
        topmost := true
        popup := true
        x := 0
        y := 0
        width := env.cxScreen
        height := env.cyScreen
        alpha := 0
        shown := false }
  else
    Except.error "Failed to create dimmer window"

/-- `new` (`src/main.rs:40-50`): build the initial struct
(`brightness = 50.0`, `dimmer_alpha = 0`, `window_visible = false`) and call
`create_dimmer_window`, whose failure hits `expect` -- a panic, modelled as
`none`.  `ds` is the pre-existing state of the attached displays; `new`
performs no brightness dispatch. -/
def new (env : WinEnv) (ds : List Display) : Option AppState :=
  match create_dimmer_window env with
  | Except.error _ => none
  | Except.ok srf =>
    some
      { brightness := 50
        dimmer_alpha := 0
        dimmer := srf
        window_visible := false
        displays := ds
        dispatched := [] }

/-- `set_brightness` (`src/main.rs:103-109`): run `EnumDisplayMonitors` with
`enum_monitor` over every attached display, store the value in the
`brightness` field, and return `Ok(())`.  The `u32 -> isize -> u32` cast
chain through the callback parameter is the identity on `u32` values. -/
def set_brightness (brightness : Nat) (s : AppState) : Except String AppState :=
  let e := enumDisplayMonitors brightness s.displays
  Except.ok
    { s with
      displays := e.1
      brightness := brightness
      dispatched := s.dispatched ++ [brightness] }

/-- `set_dimmer` (`src/main.rs:111-117`): `SetLayeredWindowAttributes` with
the given alpha (the `LWA_ALPHA` flag, 2), store it in `dimmer_alpha`, and
return `Ok(())`. -/
def set_dimmer (alpha : Nat) (s : AppState) : Except String AppState :=
  Except.ok
    { s with
      dimmer := { s.dimmer with alpha := alpha }
      dimmer_alpha := alpha }

/-- `update_from_slider` (`src/main.rs:146-155`): the intensity mapper.
`value` is the slider's `u8` after `as i32`.  The lower branch (`value <=
50`) dispatches `(value * 2) as u32` and clears the overlay; the upper
branch dispatches 100 and sets the overlay to `((value - 50) * 5) as u8`. -/
def update_from_slider (value : Int) (s : AppState) : Except String AppState :=
  if value ≤ 50 then
    match set_brightness (i32_to_u32 (value * 2)) s with
    | Except.error e => Except.error e
    | Except.ok s1 => set_dimmer 0 s1
  else
    match set_brightness 100 s with
    | Except.error e => Except.error e
    | Except.ok s1 => set_dimmer (i32_to_u8 ((value - 50) * 5)) s1

/-- The UI messages (`src/main.rs:23-27`).  `SliderChanged` carries a `u8`,
modelled as a `Nat` reduced modulo 256 at its use site. -/
inductive Message where
  | SliderChanged (value : Nat)
  | ToggleVisibility
deriving DecidableEq, Repr

/-- The `Message::ToggleVisibility` arm of `update` (`src/main.rs:61-68`):
flip `window_visible` and call `ShowWindow` with `SW_SHOW` or `SW_HIDE`
accordingly. -/
def toggle_visibility (s : AppState) : AppState :=
  let vis := !s.window_visible
  { s with
    window_visible := vis
    dimmer := { s.dimmer with shown := vis } }

/-- `update` (`src/main.rs:56-71`).  The `SliderChanged` arm calls
`update_from_slider(value as i32)` under `expect`: an `Err` would panic,
modelled as `none`.  The carried `u8` is its value modulo 256. -/
def update (m : Message) (s : AppState) : Option AppState :=
  match m with
  | Message.SliderChanged value => (update_from_slider ((value % 256 : Nat) : Int) s).toOption
  | Message.ToggleVisibility => some (toggle_visibility s)

/-- The view description produced on each redraw (`src/main.rs:73-82`): a
text label and a slider widget with bounds `0..=100` whose displayed value
is `self.brightness as u8`. -/
structure ViewModel where
  label : String
  sliderLow : Nat
  sliderHigh : Nat
  sliderValue : Nat
deriving DecidableEq, Repr

/-- `view` (`src/main.rs:73-82`). -/
def view (s : AppState) : ViewModel :=
  { label := "Brightness/Dimness"
    sliderLow := 0
    sliderHigh := 100
    sliderValue := f32_to_u8 s.brightness }

/-- The tray-channel messages (`src/main.rs:29-33`). -/
inductive SystrayMessage where
  | ShowControls
  | Quit
deriving DecidableEq, Repr

/-- The subscription consumer (`src/main.rs:84-99`) applied to the FIFO
sequence of messages sent on the channel before it closes: each
`ShowControls` received yields one `ToggleVisibility` UI event and the
consumer continues; `Quit` calls `std::process::exit(0)` at once (no later
message is received); a closed channel (`recv` returning `Err`) ends the
subscription without exiting.  Returns the UI events yielded in order and
whether the process was terminated. -/
def consume : List SystrayMessage → List Message × Bool
  | [] => ([], false)
  | SystrayMessage.ShowControls :: rest =>
    let r := consume rest
    (Message.ToggleVisibility :: r.1, r.2)
  | SystrayMessage.Quit :: _ => ([], true)

/-- A sample startup environment in which `CreateWindowExW` succeeds on a
1920x1080 primary screen. -/
def envOk : WinEnv := { createOk := true, cxScreen := 1920, cyScreen := 1080 }

/-- The state `new` constructs under `envOk` with no attached displays. -/
def initApp : AppState :=
  { brightness := 50
    dimmer_alpha := 0
    dimmer :=
      { layered := true
        inputTransparent := true
        topmost := true
        popup := true
        x := 0
        y := 0
        width := 1920
        height := 1080
        alpha := 0
        shown := false }
    window_visible := false
    displays := []
    dispatched := [] }

/-- `initApp` is exactly what `new` produces on `envOk`. -/
theorem new_envOk : new envOk [] = some initApp := rfl

/-! ### Helper lemmas -/

/-- `as u32` is the identity on naturals below 2^32. -/
theorem i32_to_u32_natCast (n : Nat) (h : n < 4294967296) :
    i32_to_u32 (n : Int) = n := by
  simp only [i32_to_u32]
  omega

/-- `as u8` on a natural is reduction modulo 256. -/
theorem i32_to_u8_natCast (n : Nat) :
    i32_to_u8 (n : Int) = n % 256 := by
  simp only [i32_to_u8]
  omega

/-- Closed form of the lower mapper branch (`value <= 50`). -/
theorem update_from_slider_le (v : Nat) (s : AppState) (h : v ≤ 50) :
    update_from_slider (v : Int) s =
      Except.ok
        { s with
          displays := (enumDisplayMonitors (v * 2) s.displays).1
          brightness := v * 2
          dispatched := s.dispatched ++ [v * 2]
          dimmer := { s.dimmer with alpha := 0 }
          dimmer_alpha := 0 } := by
  have hv : ((v : Int)) ≤ 50 := by exact_mod_cast h
  have hc : i32_to_u32 ((v : Int) * 2) = v * 2 := by
    have h2 : ((v : Int) * 2) = (((v * 2 : Nat)) : Int) := by push_cast; ring
    rw [h2, i32_to_u32_natCast _ (by omega)]
  simp [update_from_slider, if_pos hv, set_brightness, set_dimmer, hc]
  exact fun hgt => absurd hgt (by omega)

/-- Closed form of the upper mapper branch (`value > 50`). -/
theorem update_from_slider_gt (v : Nat) (s : AppState) (h : 50 < v) :
    update_from_slider (v : Int) s =
      Except.ok
        { s with
          displays := (enumDisplayMonitors 100 s.displays).1
          brightness := 100
          dispatched := s.dispatched ++ [100]
          dimmer := { s.dimmer with alpha := (v - 50) * 5 % 256 }
          dimmer_alpha := (v - 50) * 5 % 256 } := by
  have hv : ¬ ((v : Int) ≤ 50) := by
    simp only [not_le]
    exact_mod_cast h
  have hc : i32_to_u8 (((v : Int) - 50) * 5) = (v - 50) * 5 % 256 := by
    have h2 : ((v : Int) - 50) * 5 = (((v - 50) * 5 : Nat) : Int) := by
      push_cast [Nat.cast_sub h.le]
      ring
    rw [h2, i32_to_u8_natCast]
  simp [update_from_slider, if_neg hv, set_brightness, set_dimmer, hc]
  exact fun hle => absurd hle (by omega)

/-- `update_from_slider` never returns `Err`, so the `expect` at
`src/main.rs:59` never panics. -/
theorem update_from_slider_ok (value : Int) (s : AppState) :
    ∃ s', update_from_slider value s = Except.ok s' := by
  unfold update_from_slider set_brightness set_dimmer
  by_cases h : value ≤ 50 <;> simp [h]

/-! ### Claims -/

/-- Claim C1: for every slider level in [0,50] the mapper dispatches
brightness `2*level` and sets overlay alpha 0; for every level in (50,100]
it dispatches brightness 100 and sets overlay alpha `5*(level-50)`; at the
boundary, level 50 yields (100, 0) through the lower branch (`value <= 50`)
and level 51 yields (100, 5). -/
theorem claim_C1 :
    (∀ (v : Nat) (s : AppState), v ≤ 50 →
      ∃ s', update_from_slider (v : Int) s = Except.ok s' ∧
        s'.dispatched = s.dispatched ++ [2 * v] ∧
        s'.brightness = 2 * v ∧ s'.dimmer_alpha = 0) ∧
    (∀ (v : Nat) (s : AppState), 50 < v → v ≤ 100 →
      ∃ s', update_from_slider (v : Int) s = Except.ok s' ∧
        s'.dispatched = s.dispatched ++ [100] ∧
        s'.brightness = 100 ∧ s'.dimmer_alpha = 5 * (v - 50)) ∧
    Except.map (fun s => (s.brightness, s.dimmer_alpha))
      (update_from_slider ((50 : Nat) : Int) initApp) = Except.ok (100, 0) ∧
    Except.map (fun s => (s.brightness, s.dimmer_alpha))
      (update_from_slider ((51 : Nat) : Int) initApp) = Except.ok (100, 5) := by
  refine ⟨?_, ?_, rfl, rfl⟩
  · intro v s h
    refine ⟨_, update_from_slider_le v s h, ?_, ?_, ?_⟩ <;>
      simp [Nat.mul_comm v 2]
  · intro v s h1 h2
    refine ⟨_, update_from_slider_gt v s h1, ?_, ?_, ?_⟩
    · simp
    · simp
    · show (v - 50) * 5 % 256 = 5 * (v - 50)
      omega

/-- Witness for C1: evaluation at levels 30 (lower branch) and 80 (upper
branch) on the startup state. -/
theorem claim_C1_witness :
    ((30 : Nat) ≤ 50 ∧
      ∃ s', update_from_slider ((30 : Nat) : Int) initApp = Except.ok s' ∧
        s'.dispatched = initApp.dispatched ++ [2 * 30] ∧
        s'.brightness = 2 * 30 ∧ s'.dimmer_alpha = 0) ∧
    (50 < (80 : Nat) ∧ (80 : Nat) ≤ 100 ∧
      ∃ s', update_from_slider ((80 : Nat) : Int) initApp = Except.ok s' ∧
        s'.dispatched = initApp.dispatched ++ [100] ∧
        s'.brightness = 100 ∧ s'.dimmer_alpha = 5 * (80 - 50)) :=
  ⟨⟨by decide, claim_C1.1 30 initApp (by decide)⟩,
   ⟨by decide, by decide, claim_C1.2.1 80 initApp (by decide) (by decide)⟩⟩

/-- Counterexample to claim C2 as stated: the mapper does not clamp its
input to [0,100].  At the representable `u8` slider value 255 it emits
overlay alpha `(255 - 50) * 5 % 256 = 1` -- the narrowing cast reduces the
value modulo 256 -- whereas clamping to 100 first would emit 250. -/
theorem claim_C2_cex :
    Except.map (fun s => (s.brightness, s.dimmer_alpha))
      (update_from_slider ((255 : Nat) : Int) initApp) = Except.ok (100, 1) ∧
    (255 - 50) * 5 % 256 = 1 ∧
    (1 : Nat) ≠ (100 - 50) * 5 := by
  refine ⟨rfl, by decide, by decide⟩

/-- Claim C2, amended: the mapper performs no clamping.  For every
representable `u8` input the dispatched brightness is nonetheless in
[0,100] and the emitted overlay alpha in [0,255]; for inputs up to 101 the
alpha equals the exact piecewise formula, while for inputs 102..255 it is
the formula's value reduced modulo 256 by the `as u8` narrowing cast. -/
theorem claim_C2 :
    ∀ (v : Nat) (s : AppState), v ≤ 255 →
      ∃ s', update_from_slider (v : Int) s = Except.ok s' ∧
        s'.brightness ≤ 100 ∧ s'.dimmer_alpha ≤ 255 ∧
        (v ≤ 101 → s'.dimmer_alpha = if v ≤ 50 then 0 else (v - 50) * 5) ∧
        (101 < v → s'.dimmer_alpha = (v - 50) * 5 % 256) := by
  intro v s hv
  by_cases h : v ≤ 50
  · refine ⟨_, update_from_slider_le v s h, ?_, ?_, ?_, ?_⟩
    · simp
      omega
    · simp
    · intro _
      simp [h]
    · intro hc
      exact absurd hc (by omega)
  · have h' : 50 < v := by omega
    refine ⟨_, update_from_slider_gt v s h', ?_, ?_, ?_, ?_⟩
    · simp
    · simp
      omega
    · intro h101
      simp only [if_neg h]
      simp [Nat.mod_eq_of_lt (show (v - 50) * 5 < 256 by omega)]
    · intro _
      simp

/-- Witness for C2 (amended): evaluation at the `u8` input 255. -/
theorem claim_C2_witness :
    (255 : Nat) ≤ 255 ∧
    (∃ s', update_from_slider ((255 : Nat) : Int) initApp = Except.ok s' ∧
      s'.brightness ≤ 100 ∧ s'.dimmer_alpha ≤ 255 ∧
      ((255 : Nat) ≤ 101 → s'.dimmer_alpha = if (255 : Nat) ≤ 50 then 0 else (255 - 50) * 5) ∧
      (101 < (255 : Nat) → s'.dimmer_alpha = (255 - 50) * 5 % 256)) :=
  ⟨by decide, claim_C2 255 initApp (by decide)⟩

/-- Claim C3 is violated by the code: `view` binds the slider widget to the
stored `brightness` field -- the derived hardware brightness command -- not
to the slider's own last value.  After a slider event with value 30 the
widget redraws at 60.  The last conjunct shows the binding in general:
the displayed value is always `self.brightness as u8`. -/
theorem claim_C3 :
    Option.map (fun s => (view s).sliderValue)
      (update (Message.SliderChanged 30) initApp) = some 60 ∧
    (60 : Nat) ≠ 30 ∧
    (∀ s : AppState, (view s).sliderValue = f32_to_u8 s.brightness) :=
  ⟨by decide, by decide, fun _ => rfl⟩

/-- The per-display effect of the enumeration callback: the brightness is
stored exactly when the physical-monitor handle is obtained and the monitor
accepts the command; otherwise the display is left unchanged. -/
theorem enum_monitor_fst (b : Nat) (d : Display) :
    (enum_monitor b d).1 =
      if d.handleOk && d.accepts then { d with brightness := b } else d := by
  by_cases h1 : d.handleOk <;> by_cases h2 : d.accepts <;>
    simp [enum_monitor, h1, h2]

/-- A slider `update` never panics: the `Result` under the `expect` at
`src/main.rs:59` is always `Ok`. -/
theorem update_slider_some (v : Nat) (s : AppState) :
    ∃ s', update (Message.SliderChanged v) s = some s' := by
  obtain ⟨s', e⟩ := update_from_slider_ok ((v % 256 : Nat) : Int) s
  exact ⟨s', congrArg Except.toOption e⟩

/-- Claim C4: during one brightness dispatch the enumeration callback
returns continue (1) for every display, all displays are visited exactly
once, a display whose handle cannot be obtained or which rejects the
command is silently skipped while every other display receives the
dispatched value, and `set_brightness` (and the whole slider path under the
caller's `expect`) always returns `Ok`. -/
theorem claim_C4 :
    ∀ (b : Nat) (ds : List Display),
      (∀ d, (enum_monitor b d).2 = 1) ∧
      (enumDisplayMonitors b ds).2 = ds.length ∧
      (enumDisplayMonitors b ds).1 =
        ds.map (fun d => if d.handleOk && d.accepts then { d with brightness := b } else d) ∧
      (∀ s : AppState, ∃ s', set_brightness b s = Except.ok s') ∧
      (∀ (value : Int) (s : AppState), ∃ s', update_from_slider value s = Except.ok s') := by
  intro b ds
  refine ⟨fun _ => rfl, ?_, ?_, fun _ => ⟨_, rfl⟩, fun value s => update_from_slider_ok value s⟩
  · induction ds with
    | nil => rfl
    | cons d rest ih => simp [enumDisplayMonitors, enum_monitor, ih]
  · induction ds with
    | nil => rfl
    | cons d rest ih =>
      simp only [enumDisplayMonitors, List.map]
      rw [← enum_monitor_fst]
      simp [enum_monitor, ih]

/-- Claim C5: channel messages are consumed in FIFO order; each
`ShowControls` consumed yields exactly one `ToggleVisibility` event and the
consumer continues; a `Quit` terminates the process at once, with no later
channel message processed.  In particular `ShowControls, ShowControls,
Quit` yields exactly two toggles, in order, before termination. -/
theorem claim_C5 :
    consume [SystrayMessage.ShowControls, SystrayMessage.ShowControls, SystrayMessage.Quit] =
      ([Message.ToggleVisibility, Message.ToggleVisibility], true) ∧
    (∀ rest, consume (SystrayMessage.ShowControls :: rest) =
      (Message.ToggleVisibility :: (consume rest).1, (consume rest).2)) ∧
    (∀ rest, consume (SystrayMessage.Quit :: rest) = ([], true)) ∧
    consume [] = ([], false) :=
  ⟨rfl, fun _ => rfl, fun _ => rfl, rfl⟩

/-- Claim C6: overlay initialization creates an input-transparent, topmost,
layered, popup (borderless) surface covering the primary screen, with alpha
0 and not shown; if `CreateWindowExW` returns a null handle the error
reaches the `expect` in `new`, aborting the process. -/
theorem claim_C6 :
    ∀ (env : WinEnv) (ds : List Display),
      (env.createOk = false → new env ds = none) ∧
      (env.createOk = true →
        ∃ s, new env ds = some s ∧
          s.dimmer.inputTransparent = true ∧ s.dimmer.topmost = true ∧
          s.dimmer.layered = true ∧ s.dimmer.popup = true ∧
          s.dimmer.x = 0 ∧ s.dimmer.y = 0 ∧
          s.dimmer.width = env.cxScreen ∧ s.dimmer.height = env.cyScreen ∧
          s.dimmer.alpha = 0 ∧ s.dimmer.shown = false ∧
          s.dimmer_alpha = 0 ∧ s.window_visible = false) := by
  intro env ds
  constructor
  · intro h
    simp [new, create_dimmer_window, h]
  · intro h
    simp only [new, create_dimmer_window, h, if_true]
    exact ⟨_, rfl, rfl, rfl, rfl, rfl, rfl, rfl, rfl, rfl, rfl, rfl, rfl, rfl⟩

/-- Witness for C6: a failing and a succeeding startup environment. -/
theorem claim_C6_witness :
    (new { createOk := false, cxScreen := 800, cyScreen := 600 } [] = none) ∧
    (∃ s, new envOk [] = some s ∧
      s.dimmer.inputTransparent = true ∧ s.dimmer.topmost = true ∧
      s.dimmer.layered = true ∧ s.dimmer.popup = true ∧
      s.dimmer.x = 0 ∧ s.dimmer.y = 0 ∧
      s.dimmer.width = envOk.cxScreen ∧ s.dimmer.height = envOk.cyScreen ∧
      s.dimmer.alpha = 0 ∧ s.dimmer.shown = false ∧
      s.dimmer_alpha = 0 ∧ s.window_visible = false) :=
  ⟨(claim_C6 { createOk := false, cxScreen := 800, cyScreen := 600 } []).1 rfl,
   (claim_C6 envOk []).2 rfl⟩

/-- Claim C7: `set_dimmer` succeeds in either visibility state and never
changes the visible flag or the surface's shown state; a visibility toggle
never changes the stored alpha or the surface alpha; and applying one
`set_dimmer` and one toggle in either order yields the same final state. -/
theorem claim_C7 :
    ∀ (a : Nat) (s : AppState),
      (∃ s1, set_dimmer a s = Except.ok s1 ∧
        s1.window_visible = s.window_visible ∧
        s1.dimmer.shown = s.dimmer.shown ∧
        s1.dimmer_alpha = a ∧ s1.dimmer.alpha = a) ∧
      ((toggle_visibility s).dimmer_alpha = s.dimmer_alpha ∧
        (toggle_visibility s).dimmer.alpha = s.dimmer.alpha) ∧
      Except.map toggle_visibility (set_dimmer a s) = set_dimmer a (toggle_visibility s) := by
  intro a s
  exact ⟨⟨_, rfl, rfl, rfl, rfl, rfl⟩, ⟨rfl, rfl⟩, rfl⟩

/-- Claim C8: a `SliderChanged` event never changes the `window_visible`
flag or the surface's shown state; only `ToggleVisibility` does, flipping
both. -/
theorem claim_C8 :
    ∀ (v : Nat) (s : AppState),
      (∃ s', update (Message.SliderChanged v) s = some s' ∧
        s'.window_visible = s.window_visible ∧
        s'.dimmer.shown = s.dimmer.shown) ∧
      update Message.ToggleVisibility s = some (toggle_visibility s) ∧
      (toggle_visibility s).window_visible = !s.window_visible ∧
      (toggle_visibility s).dimmer.shown = !s.window_visible := by
  intro v s
  refine ⟨?_, rfl, rfl, rfl⟩
  by_cases h : v % 256 ≤ 50
  · exact ⟨_, congrArg Except.toOption (update_from_slider_le (v % 256) s h), rfl, rfl⟩
  · exact ⟨_, congrArg Except.toOption (update_from_slider_gt (v % 256) s (by omega)), rfl, rfl⟩

/-- Claim C9: if the channel closes without a `Quit` having been sent, the
consumer does not terminate the process, yields exactly one toggle per
message received and then stops, and slider events keep working. -/
theorem claim_C9 :
    ∀ (ms : List SystrayMessage), SystrayMessage.Quit ∉ ms →
      (consume ms).2 = false ∧
      (consume ms).1 = ms.map (fun _ => Message.ToggleVisibility) ∧
      (∀ (v : Nat) (s : AppState), ∃ s', update (Message.SliderChanged v) s = some s') := by
  have key : ∀ ms : List SystrayMessage, SystrayMessage.Quit ∉ ms →
      (consume ms).2 = false ∧ (consume ms).1 = ms.map (fun _ => Message.ToggleVisibility) := by
    intro ms
    induction ms with
    | nil => intro _; exact ⟨rfl, rfl⟩
    | cons m rest ih =>
      intro h
      cases m with
      | ShowControls =>
        have h' : SystrayMessage.Quit ∉ rest := fun hm => h (List.mem_cons_of_mem _ hm)
        obtain ⟨h1, h2⟩ := ih h'
        exact ⟨h1, by simp [consume, h1, h2]⟩
      | Quit => exact absurd (List.mem_cons_self _ _) h
  intro ms h
  exact ⟨(key ms h).1, (key ms h).2, fun v s => update_slider_some v s⟩

/-- Witness for C9: a channel on which two `ShowControls` were sent and
whose producers then dropped. -/
theorem claim_C9_witness :
    SystrayMessage.Quit ∉ [SystrayMessage.ShowControls, SystrayMessage.ShowControls] ∧
    ((consume [SystrayMessage.ShowControls, SystrayMessage.ShowControls]).2 = false ∧
      (consume [SystrayMessage.ShowControls, SystrayMessage.ShowControls]).1 =
        [SystrayMessage.ShowControls, SystrayMessage.ShowControls].map
          (fun _ => Message.ToggleVisibility) ∧
      (∀ (v : Nat) (s : AppState), ∃ s', update (Message.SliderChanged v) s = some s')) :=
  ⟨by decide, claim_C9 [SystrayMessage.ShowControls, SystrayMessage.ShowControls] (by decide)⟩

/-- Claim C10: in the state constructed at startup the slider displays 50,
the overlay alpha is 0 and the overlay is hidden, the dispatch trace is
empty and the attached displays' hardware brightness is untouched. -/
theorem claim_C10 :
    ∀ (env : WinEnv) (ds : List Display), env.createOk = true →
      ∃ s, new env ds = some s ∧
        s.brightness = 50 ∧ (view s).sliderValue = 50 ∧
        s.dimmer_alpha = 0 ∧ s.dimmer.alpha = 0 ∧
        s.window_visible = false ∧ s.dimmer.shown = false ∧
        s.dispatched = [] ∧ s.displays = ds := by
  intro env ds h
  simp only [new, create_dimmer_window, h, if_true]
  exact ⟨_, rfl, rfl, rfl, rfl, rfl, rfl, rfl, rfl, rfl⟩

/-- Witness for C10: startup under `envOk` with one attached display whose
hardware brightness 7 is left unchanged. -/
theorem claim_C10_witness :
    envOk.createOk = true ∧
    (∃ s, new envOk [{ handleOk := true, accepts := true, brightness := 7 }] = some s ∧
      s.brightness = 50 ∧ (view s).sliderValue = 50 ∧
      s.dimmer_alpha = 0 ∧ s.dimmer.alpha = 0 ∧
      s.window_visible = false ∧ s.dimmer.shown = false ∧
      s.dispatched = [] ∧
      s.displays = [{ handleOk := true, accepts := true, brightness := 7 }]) :=
  ⟨rfl, claim_C10 envOk [{ handleOk := true, accepts := true, brightness := 7 }] rfl⟩

end LuxFlex
